import Mathlib

/-!
Shallow embedding of the imagekit-mcp-server core (`src/index.js`) and
verification of its specification claims.

JavaScript strings are modelled as Lean `String`s; the JS string methods
used by the source (`endsWith`, `slice(0,-1)`, `startsWith`, `split(",")`,
`join`) are embedded as list-of-characters functions below.  JS `undefined`
for an optional value is modelled as `Option.none`; JS truthiness tests on
strings (`!s`, `if (s)`), numbers (`0` is falsy) and arrays/objects are
embedded explicitly at each use site.
-/

set_option autoImplicit false

namespace ImageKitMCP

/-- JS `s.endsWith(suffix)`. -/
def jsEndsWith (s suffix : String) : Bool :=
  suffix.data.isSuffixOf s.data

/-- JS `s.startsWith(p)`. -/
def jsStartsWith (s p : String) : Bool :=
  p.data.isPrefixOf s.data

/-- JS `s.slice(0, -1)`: the string without its final character. -/
def jsDropLast (s : String) : String :=
  String.mk s.data.dropLast

/-- Character-level worker for JS `s.split(",")`: `acc` holds the current
segment reversed. -/
def jsSplitCommaAux : List Char → List Char → List String
  | [], acc => [String.mk acc.reverse]
  | c :: cs, acc =>
      if c = ',' then String.mk acc.reverse :: jsSplitCommaAux cs []
      else jsSplitCommaAux cs (c :: acc)

/-- JS `s.split(",")`.  Like in JS, the result always has at least one
element, and splitting the empty string yields `[""]`. -/
def jsSplitComma (s : String) : List String :=
  jsSplitCommaAux s.data []

/-- JS string truthiness on an optional string: `undefined` and `""` are
falsy. -/
def strTruthy : Option String → Bool
  | none => false
  | some s => s ≠ ""

/-- JS `a || b` for an optional string `a` with string default `b`. -/
def jsOrStr (a : Option String) (b : String) : String :=
  match a with
  | some s => if s = "" then b else s
  | none => b

/-- JS number truthiness on an optional number: `undefined` and `0` are
falsy. -/
def numTruthy : Option Nat → Bool
  | none => false
  | some n => n ≠ 0

/-- Embeds `src/index.js:33-36`: `trimSlash(folder)` — `"/"` for a falsy folder,
otherwise drops a single trailing `/` when present. -/
def trimSlash (folder : String) : String :=
  if folder = "" then "/"
  else if jsEndsWith folder "/" then jsDropLast folder
  else folder

/-- JS `(n / 1024).toFixed(1)` for a byte count `n : Nat`.  `n / 1024` is
exactly representable as a double for every realistic size (`n < 2^53`) and
`x.x5` decimal ties cannot arise from a denominator of `1024`, so
`toFixed(1)` is exactly rounding `10 * n / 1024` to the nearest integer. -/
def toFixed1KB (n : Nat) : String :=
  toString ((10 * n + 512) / 1024 / 10) ++ "." ++ toString ((10 * n + 512) / 1024 % 10)

-- --- Response envelopes (src/index.js:38-44) ---

/-- One entry of a tool result's `content` array. -/
structure ContentItem where
  type : String
  text : String
deriving DecidableEq

/-- The uniform MCP response envelope. -/
structure ToolResult where
  content : List ContentItem
  isError : Bool
deriving DecidableEq

/-- Embeds `src/index.js:38-40`: successful envelope. -/
def formatResult (text : String) : ToolResult :=
  { content := [{ type := "text", text := text }], isError := false }

/-- Embeds `src/index.js:42-44`: error envelope. -/
def formatError (message : String) : ToolResult :=
  { content := [{ type := "text", text := message }], isError := true }

-- --- Backend client gateway (src/index.js:12-29) ---

/-- The three environment variables; `none` models an unset variable. -/
structure Env where
  publicKey : Option String
  privateKey : Option String
  urlEndpoint : Option String
deriving DecidableEq

/-- The constructed ImageKit client (`new ImageKit({...})`), identified by
its credential bundle. -/
structure Client where
  publicKey : String
  privateKey : String
  urlEndpoint : String
deriving DecidableEq

/-- The error message thrown by `getClient` on missing credentials. -/
def missingCredentialsMsg : String :=
  "Missing credentials. Set IMAGEKIT_PUBLIC_KEY, IMAGEKIT_PRIVATE_KEY, and IMAGEKIT_URL_ENDPOINT."

/-- Embeds `src/index.js:21`: the credential check `!publicKey || !privateKey ||
!urlEndpoint`, negated. -/
def credsOk (env : Env) : Bool :=
  strTruthy env.publicKey && strTruthy env.privateKey && strTruthy env.urlEndpoint

/-- Embeds `src/index.js:14-29`: `getClient()` over the module-level mutable
`client` (the `cached` argument), returning the thrown-or-returned value
together with the new cached state.  A throw leaves the cache untouched. -/
def getClient (cached : Option Client) (env : Env) :
    Except String Client × Option Client :=
  match cached with
  | some c => (Except.ok c, some c)
  | none =>
      if credsOk env then
        let c : Client :=
          { publicKey := env.publicKey.getD ""
            privateKey := env.privateKey.getD ""
            urlEndpoint := env.urlEndpoint.getD "" }
        (Except.ok c, some c)
      else
        (Except.error missingCredentialsMsg, none)

-- --- Upload normalizer (src/index.js:55-82) ---

/-- Arbitrary-valued custom metadata records are modelled as string-valued
association lists; no claim inspects the values. -/
abbrev CustomMetadata : Type := List (String × String)

/-- The `options` argument shared by the three upload tools after zod
validation.  `none` models an absent (`undefined`) field: `uploadToImageKit`
is defensive (`??` and truthiness guards), so every field stays optional
here even though zod supplies defaults for the first four. -/
structure UploadToolOptions where
  folder : Option String
  useUniqueFileName : Option Bool
  isPrivateFile : Option Bool
  overwriteFile : Option Bool
  tags : Option (List String)
  customCoordinates : Option String
  customMetadata : Option CustomMetadata
deriving DecidableEq

/-- The `uploadOptions` object handed to `ik.upload` (src/index.js:58-69).
`file` is `Option String` because `upload_base64_file` can forward JS
`undefined` when a `data:`-prefixed string has no comma. -/
structure UploadRequest where
  file : Option String
  fileName : String
  folder : String
  useUniqueFileName : Bool
  isPrivateFile : Bool
  overwriteFile : Bool
  tags : Option (List String)
  customCoordinates : Option String
  customMetadata : Option CustomMetadata
deriving DecidableEq

/-- Embeds `src/index.js:58-69`: assembly of the backend upload request inside
`uploadToImageKit`.  `trimSlash` receives the raw `options.folder`; JS
treats `undefined` and `""` alike there, captured by `getD ""`.  The three
optional fields are attached only when truthy: `options.tags?.length`,
`options.customCoordinates` (string truthiness), `options.customMetadata`
(object truthiness: present even when the record is empty). -/
def uploadReq (fileData : Option String) (fileName : String)
    (options : UploadToolOptions) : UploadRequest :=
  { file := fileData
    fileName := fileName
    folder := trimSlash (options.folder.getD "")
    useUniqueFileName := options.useUniqueFileName.getD true
    isPrivateFile := options.isPrivateFile.getD false
    overwriteFile := options.overwriteFile.getD false
    tags :=
      match options.tags with
      | some ts => if ts.length ≠ 0 then some ts else none
      | none => none
    customCoordinates :=
      match options.customCoordinates with
      | some s => if s ≠ "" then some s else none
      | none => none
    customMetadata := options.customMetadata }

/-- Fields of the backend's upload response used by the success message. -/
structure UploadBackendResult where
  name : String
  fileId : String
  url : String
  size : Nat
  filePath : String
  fileType : String
deriving DecidableEq

/-- Embeds `src/index.js:73-81`: the success text rendered by `uploadToImageKit`. -/
def uploadSuccessText (result : UploadBackendResult) : String :=
  "File uploaded successfully.\n\n" ++
    "   Name: " ++ result.name ++ "\n" ++
    "   ID: " ++ result.fileId ++ "\n" ++
    "   URL: " ++ result.url ++ "\n" ++
    "   Size: " ++ toFixed1KB result.size ++ " KB\n" ++
    "   Path: " ++ result.filePath ++ "\n" ++
    "   Type: " ++ result.fileType

/-- Trace of one run of `uploadToImageKit` (src/index.js:55-82):
the thrown-or-returned envelope, whether `getClient()` was invoked, and the
request handed to `ik.upload` (`none` when the backend was never called). -/
structure UploadTrace where
  outcome : Except String ToolResult
  clientRequested : Bool
  uploadRequest : Option UploadRequest

/-- Embeds `src/index.js:55-82`: `uploadToImageKit` with the client cache, the
environment, and the backend (`ik.upload`) as an oracle. -/
def uploadToImageKitRun (cached : Option Client) (env : Env)
    (backend : UploadRequest → UploadBackendResult)
    (fileData : Option String) (fileName : String)
    (options : UploadToolOptions) : UploadTrace :=
  match (getClient cached env).1 with
  | Except.error msg =>
      { outcome := Except.error msg, clientRequested := true, uploadRequest := none }
  | Except.ok _ =>
      let req := uploadReq fileData fileName options
      { outcome := Except.ok (formatResult (uploadSuccessText (backend req)))
        clientRequested := true
        uploadRequest := some req }

-- --- File info formatting (src/index.js:46-53) ---

/-- A backend file record as consumed by `formatFileInfo`.  Optional fields
model JS `undefined`. -/
structure FileRecord where
  name : String
  fileType : Option String
  size : Option Nat
  width : Option Nat
  height : Option Nat
  tags : Option (List String)
  fileId : String
  url : String
deriving DecidableEq

/-- Embeds `src/index.js:47`: the local `size` — `file.size ? ... : "N/A"`, so a
JS-falsy size (`undefined` or `0`) renders `"N/A"`. -/
def fileSizeStr (file : FileRecord) : String :=
  if numTruthy file.size then toFixed1KB (file.size.getD 0) ++ " KB" else "N/A"

/-- Embeds `src/index.js:48-49`: the local `dims` — `file.width && file.height`,
so a JS-falsy dimension (`undefined` or `0`) suppresses the pair. -/
def fileDimsStr (file : FileRecord) : String :=
  if numTruthy file.width && numTruthy file.height then
    toString (file.width.getD 0) ++ "x" ++ toString (file.height.getD 0)
  else ""

/-- Embeds `src/index.js:50-51`: the local `tags` — `file.tags && file.tags.length > 0`. -/
def fileTagsStr (file : FileRecord) : String :=
  match file.tags with
  | some ts =>
      if ts.length > 0 then "\n   Tags: " ++ String.intercalate ", " ts else ""
  | none => ""

/-- Embeds `src/index.js:46-53`: `formatFileInfo(file)`, with `file.fileType ||
"file"` for the type. -/
def formatFileInfo (file : FileRecord) : String :=
  file.name ++ " (" ++ jsOrStr file.fileType "file" ++ ", " ++ fileSizeStr file ++
    (if fileDimsStr file ≠ "" then ", " ++ fileDimsStr file else "") ++ ")" ++
    fileTagsStr file ++ "\n   ID: " ++ file.fileId ++ "\n   URL: " ++ file.url

/-- C7 as literally claimed: the size renders `"N/A"` exactly when absent,
and the dimension pair renders exactly when both fields are present. -/
def fileSizeStrClaim (file : FileRecord) : String :=
  match file.size with
  | some n => toFixed1KB n ++ " KB"
  | none => "N/A"

/-- C7 as literally claimed: dimensions whenever both fields are present. -/
def fileDimsStrClaim (file : FileRecord) : String :=
  match file.width, file.height with
  | some w, some h => toString w ++ "x" ++ toString h
  | _, _ => ""

/-- Definition of `formatFileInfo` as C7 literally describes it. -/
def formatFileInfoClaim (file : FileRecord) : String :=
  file.name ++ " (" ++ jsOrStr file.fileType "file" ++ ", " ++ fileSizeStrClaim file ++
    (if fileDimsStrClaim file ≠ "" then ", " ++ fileDimsStrClaim file else "") ++ ")" ++
    fileTagsStr file ++ "\n   ID: " ++ file.fileId ++ "\n   URL: " ++ file.url

/-- The size rendering of C7 as amended: `"N/A"` when the size is absent
or zero. -/
def fileSizeStrAmended (file : FileRecord) : String :=
  match file.size with
  | some n => if n = 0 then "N/A" else toFixed1KB n ++ " KB"
  | none => "N/A"

/-- The dimension rendering of C7 as amended: `"WxH"` when both fields are
present and nonzero. -/
def fileDimsStrAmended (file : FileRecord) : String :=
  match file.width, file.height with
  | some w, some h => if w ≠ 0 ∧ h ≠ 0 then toString w ++ "x" ++ toString h else ""
  | _, _ => ""

/-- Definition of `formatFileInfo` as C7 describes it after amendment. -/
def formatFileInfoAmended (file : FileRecord) : String :=
  file.name ++ " (" ++ jsOrStr file.fileType "file" ++ ", " ++ fileSizeStrAmended file ++
    (if fileDimsStrAmended file ≠ "" then ", " ++ fileDimsStrAmended file else "") ++ ")" ++
    fileTagsStr file ++ "\n   ID: " ++ file.fileId ++ "\n   URL: " ++ file.url

-- --- list_folders (src/index.js:147-174) ---

/-- One entry of the backend listing consumed by `list_folders`.  File-type
entries carry no `folderId`/`folderPath`; rendering an absent field prints
JS `"undefined"`. -/
structure ListEntry where
  type : String
  name : String
  folderId : Option String
  folderPath : Option String
deriving DecidableEq

/-- JS template interpolation of a possibly-`undefined` string. -/
def jsShow (o : Option String) : String :=
  o.getD "undefined"

/-- Embeds `src/index.js:168-170`: the per-folder rendering. -/
def folderLine (f : ListEntry) : String :=
  f.name ++ "\n   ID: " ++ jsShow f.folderId ++ "\n   Path: " ++ jsShow f.folderPath

/-- Embeds `src/index.js:162-172`: the `list_folders` handler body after the
backend call: client-side filter to `type === "folder"`, the empty message,
and the counted header. -/
def list_folders_render (folderPath : String) (result : List ListEntry) : ToolResult :=
  let folders := result.filter (fun item => item.type == "folder")
  if folders.length = 0 then
    formatResult ("No folders found in \"" ++ folderPath ++ "\".")
  else
    formatResult ("Found " ++ toString folders.length ++ " folder(s) in \"" ++
      folderPath ++ "\":\n\n" ++ String.intercalate "\n\n" (folders.map folderLine))

/-- Embeds `src/index.js:153-173`: the full `list_folders` handler; the backend
(`ik.listFiles` with `includeFolder: true, type: "folder"`) is an oracle
from the queried path to the returned entries. -/
def list_folders_handler (cached : Option Client) (env : Env)
    (backend : String → List ListEntry) (folderPath : String) :
    Except String ToolResult :=
  match (getClient cached env).1 with
  | Except.error msg => Except.error msg
  | Except.ok _ => Except.ok (list_folders_render folderPath (backend folderPath))

-- --- upload_file (src/index.js:203-222) ---

/-- Outcome of src/index.js:211-220 before any gateway involvement: either
the short-circuit error, or the payload/name pair handed to
`uploadToImageKit`. -/
inductive UploadFileStep where
  | notFound (msg : String)
  | delegate (fileData : String) (name : String)
deriving DecidableEq

/-- Embeds `src/index.js:211-220`: existence check, read-and-encode, and name
defaulting (`fileName || path.basename(filePath)`).  The filesystem and
`path.basename` are oracles; `fsReadB64` collapses `readFileSync` plus
`toString("base64")` into one map from path to base64 payload. -/
def upload_file_step (fsExists : String → Bool) (fsReadB64 : String → String)
    (basename : String → String) (filePath : String) (fileName : Option String) :
    UploadFileStep :=
  if fsExists filePath then
    UploadFileStep.delegate (fsReadB64 filePath) (jsOrStr fileName (basename filePath))
  else
    UploadFileStep.notFound ("File not found: " ++ filePath)

/-- Embeds `src/index.js:211-221`: the full `upload_file` handler as a trace. -/
def upload_file_handler (cached : Option Client) (env : Env)
    (backend : UploadRequest → UploadBackendResult)
    (fsExists : String → Bool) (fsReadB64 : String → String)
    (basename : String → String) (filePath : String) (fileName : Option String)
    (options : UploadToolOptions) : UploadTrace :=
  match upload_file_step fsExists fsReadB64 basename filePath fileName with
  | UploadFileStep.notFound msg =>
      { outcome := Except.ok (formatError msg)
        clientRequested := false
        uploadRequest := none }
  | UploadFileStep.delegate fileData name =>
      uploadToImageKitRun cached env backend (some fileData) name options

-- --- upload_file_from_url (src/index.js:224-235) ---

/-- Embeds `src/index.js:232-234`: the handler passes the URL through as the
payload. -/
def upload_file_from_url_handler (cached : Option Client) (env : Env)
    (backend : UploadRequest → UploadBackendResult) (url : String)
    (fileName : String) (options : UploadToolOptions) : UploadTrace :=
  uploadToImageKitRun cached env backend (some url) fileName options

-- --- upload_base64_file (src/index.js:237-253) ---

/-- Embeds `src/index.js:247-249`: `base64Data.startsWith("data:") ?
base64Data.split(",")[1] : base64Data`.  Indexing `[1]` past the end of the
split is JS `undefined`, hence the `Option`. -/
def cleanBase64Data (base64Data : String) : Option String :=
  if jsStartsWith base64Data "data:" then (jsSplitComma base64Data).get? 1
  else some base64Data

/-- Embeds `src/index.js:245-252`: the full `upload_base64_file` handler. -/
def upload_base64_file_handler (cached : Option Client) (env : Env)
    (backend : UploadRequest → UploadBackendResult) (base64Data : String)
    (fileName : String) (options : UploadToolOptions) : UploadTrace :=
  uploadToImageKitRun cached env backend (cleanBase64Data base64Data) fileName options

-- --- generate_url (src/index.js:309-346) ---

/-- A transformation descriptor list: ordered records with opaque scalar
values, modelled as strings. -/
abbrev Transformations : Type := List (List (String × String))

/-- The validated input of `generate_url`; zod has already applied the
defaults `transformationPosition = "path"`, `signed = false`,
`expireSeconds = 300`. -/
structure GenerateUrlInput where
  path : Option String
  src : Option String
  transformation : Option Transformations
  transformationPosition : String
  signed : Bool
  expireSeconds : Int
deriving DecidableEq

/-- The options object handed to `ik.url` (src/index.js:330-337). -/
structure UrlOptions where
  transformation_position : String
  path : Option String
  src : Option String
  transformation : Option Transformations
  signed : Option Bool
  expire_seconds : Option Int
deriving DecidableEq

/-- Embeds `src/index.js:330-337`: assembly of the `ik.url` options.  `path` and
`src` are attached only when truthy; `transformation` whenever present (a
JS array is truthy even when empty); `signed`/`expire_seconds` only when
`signed` is true. -/
def buildUrlOptions (i : GenerateUrlInput) : UrlOptions :=
  { transformation_position := i.transformationPosition
    path := if strTruthy i.path then i.path else none
    src := if strTruthy i.src then i.src else none
    transformation := i.transformation
    signed := if i.signed then some true else none
    expire_seconds := if i.signed then some i.expireSeconds else none }

/-- Embeds `src/index.js:341-344`: the success text of `generate_url`. -/
def generateUrlText (url : String) (signed : Bool) (expireSeconds : Int) : String :=
  "Generated URL:\n\n   " ++ url ++
    (if signed then "\n\n   Signed: yes, expires in " ++ toString expireSeconds ++ "s"
     else "")

/-- Trace of one run of the `generate_url` handler. -/
structure GenerateUrlTrace where
  outcome : Except String ToolResult
  clientRequested : Bool
  builderCall : Option UrlOptions

/-- Embeds `src/index.js:323-345`: the `generate_url` handler, with `ik.url` as an
oracle.  The cross-field check `!imgPath && !src` fires before
`getClient()`. -/
def generate_url_handler (cached : Option Client) (env : Env)
    (build : UrlOptions → String) (i : GenerateUrlInput) : GenerateUrlTrace :=
  if !strTruthy i.path && !strTruthy i.src then
    { outcome := Except.ok (formatError "Either 'path' or 'src' is required.")
      clientRequested := false
      builderCall := none }
  else
    match (getClient cached env).1 with
    | Except.error msg =>
        { outcome := Except.error msg, clientRequested := true, builderCall := none }
    | Except.ok _ =>
        let options := buildUrlOptions i
        { outcome := Except.ok (formatResult
            (generateUrlText (build options) i.signed i.expireSeconds))
          clientRequested := true
          builderCall := some options }

-- --- Spec-side definitions and concrete sample data ---

/-- Stated from C1's words: the remainder of the string after its first
comma (`none` when the string contains no comma). -/
def remainderAfterFirstComma (s : String) : Option String :=
  match jsSplitComma s with
  | [] => none
  | [_] => none
  | _ :: rest => some (String.intercalate "," rest)

/-- An options record with every field absent, used as a base for concrete
instances. -/
def emptyOptions : UploadToolOptions :=
  { folder := none, useUniqueFileName := none, isPrivateFile := none,
    overwriteFile := none, tags := none, customCoordinates := none,
    customMetadata := none }

/-- A concrete client for instantiating handler theorems. -/
def sampleClient : Client :=
  { publicKey := "pk", privateKey := "sk", urlEndpoint := "https://ik.example" }

/-- A concrete environment with every credential unset. -/
def emptyEnv : Env :=
  { publicKey := none, privateKey := none, urlEndpoint := none }

/-- A concrete backend upload response. -/
def sampleBackendResult : UploadBackendResult :=
  { name := "n", fileId := "i", url := "u", size := 0, filePath := "p", fileType := "t" }

/-- A concrete `generate_url` input with neither `path` nor `src`. -/
def noSourceInput : GenerateUrlInput :=
  { path := none, src := none, transformation := none,
    transformationPosition := "path", signed := false, expireSeconds := 300 }

/-- A concrete signed `generate_url` input with the default expiry. -/
def signedInput : GenerateUrlInput :=
  { path := some "/img.jpg", src := none, transformation := none,
    transformationPosition := "path", signed := true, expireSeconds := 300 }

/-- A concrete unsigned `generate_url` input with a non-default expiry. -/
def unsignedInput : GenerateUrlInput :=
  { path := some "/img.jpg", src := none, transformation := none,
    transformationPosition := "path", signed := false, expireSeconds := 999 }

-- --- Helper lemmas ---

theorem intercalate_singleton (s b : String) : String.intercalate s [b] = b := rfl

theorem jsEndsWith_iff {s t : String} : jsEndsWith s t = true ↔ t.data <:+ s.data := by
  simp [jsEndsWith]

theorem jsDropLast_data (s : String) : (jsDropLast s).data = s.data.dropLast := rfl

theorem slash_suffix_aux {l : List Char} (h1 : ['/'] <:+ l)
    (h2 : ['/'] <:+ l.dropLast) : ['/', '/'] <:+ l := by
  obtain ⟨t, rfl⟩ := h1
  rw [List.dropLast_concat] at h2
  obtain ⟨u, rfl⟩ := h2
  exact ⟨u, by simp⟩

theorem trimSlash_of_not_slash (s : String) (h1 : s ≠ "")
    (h2 : jsEndsWith s "/" = false) : trimSlash s = s := by
  simp [trimSlash, h1, h2]

theorem trimSlash_of_slash (s : String) (h1 : s ≠ "")
    (h2 : jsEndsWith s "/" = true) : trimSlash s = jsDropLast s := by
  simp [trimSlash, h1, h2]

theorem trimSlash_no_trailing (f : String) (h1 : f ≠ "")
    (h2 : jsEndsWith f "//" = false) : jsEndsWith (trimSlash f) "/" = false := by
  cases h : jsEndsWith f "/" with
  | false => rw [trimSlash_of_not_slash f h1 h]; exact h
  | true =>
      rw [trimSlash_of_slash f h1 h]
      by_contra hc
      rw [Bool.not_eq_false] at hc
      have hsuf : ['/'] <:+ f.data.dropLast := by
        have := jsEndsWith_iff.mp hc
        rwa [jsDropLast_data] at this
      have hsuf1 : ['/'] <:+ f.data := jsEndsWith_iff.mp h
      have hdd : jsEndsWith f "//" = true :=
        jsEndsWith_iff.mpr (slash_suffix_aux hsuf1 hsuf)
      rw [hdd] at h2
      exact Bool.noConfusion h2

-- --- Claim theorems ---

/-- C1 (counterexample): on `"data:x,AA,BB"` the handler forwards `"AA"`,
the segment between the first and second commas, while the remainder after
the first comma is `"AA,BB"` — so the claim as stated fails. -/
theorem upload_base64_remainder_counterexample :
    cleanBase64Data "data:x,AA,BB" = some "AA" ∧
    remainderAfterFirstComma "data:x,AA,BB" = some "AA,BB" ∧
    cleanBase64Data "data:x,AA,BB" ≠ remainderAfterFirstComma "data:x,AA,BB" :=
  ⟨by decide, by decide, by decide⟩

/-- C1 (amended): a `"data:"`-prefixed payload forwards the second
comma-separated field, which coincides with the remainder after the first
comma whenever the string contains at most one comma; a string without the
marker is forwarded unchanged; the request assembled by the handler carries
exactly this payload; and the claim's two concrete examples hold. -/
theorem upload_base64_forwarding :
    (∀ s : String, jsStartsWith s "data:" = true → (jsSplitComma s).length ≤ 2 →
        cleanBase64Data s = remainderAfterFirstComma s) ∧
    (∀ s : String, jsStartsWith s "data:" = false → cleanBase64Data s = some s) ∧
    (∀ (cached : Option Client) (env : Env)
        (backend : UploadRequest → UploadBackendResult) (s fn : String)
        (opts : UploadToolOptions) (req : UploadRequest),
        (upload_base64_file_handler cached env backend s fn opts).uploadRequest = some req →
        req.file = cleanBase64Data s) ∧
    cleanBase64Data "data:image/png;base64,AAAA" = some "AAAA" ∧
    cleanBase64Data "AAAA" = some "AAAA" := by
  refine ⟨?_, ?_, ?_, by decide, by decide⟩
  · intro s hpre hlen
    rcases h : jsSplitComma s with _ | ⟨a, _ | ⟨b, _ | ⟨c, rest⟩⟩⟩
    · simp [cleanBase64Data, remainderAfterFirstComma, hpre, h]
    · simp [cleanBase64Data, remainderAfterFirstComma, hpre, h]
    · simp [cleanBase64Data, remainderAfterFirstComma, hpre, h, intercalate_singleton]
    · rw [h] at hlen
      simp at hlen
  · intro s hpre
    simp [cleanBase64Data, hpre]
  · intro cached env backend s fn opts req hreq
    unfold upload_base64_file_handler uploadToImageKitRun at hreq
    split at hreq
    · simp at hreq
    · simp at hreq
      rw [← hreq]
      rfl

/-- C1 (witness): instantiation of the amended theorem on the spec's
concrete data-URI example and an unprefixed payload. -/
theorem upload_base64_forwarding_witness :
    cleanBase64Data "data:text/plain;base64,aGVsbG8=" =
      remainderAfterFirstComma "data:text/plain;base64,aGVsbG8=" ∧
    cleanBase64Data "plain" = some "plain" :=
  ⟨upload_base64_forwarding.1 "data:text/plain;base64,aGVsbG8=" (by decide) (by decide),
   upload_base64_forwarding.2.1 "plain" (by decide)⟩

/-- C2 (counterexample): trimming is not idempotent on the empty folder:
`trim("") = "/"` but `trim(trim("")) = trim("/") = ""`. -/
theorem trimSlash_idempotent_counterexample :
    trimSlash "" = "/" ∧ trimSlash (trimSlash "") = "" ∧
    trimSlash (trimSlash "") ≠ trimSlash "" :=
  ⟨by decide, by decide, by decide⟩

/-- C2 (amended): trimming is idempotent on every folder whose trimmed form
is nonempty and does not end in a slash (the failures are exactly `""`,
`"/"` and folders ending in `"//"`); the claim's concrete equations
`trim("") = "/"` and `trim("/a/b/") = "/a/b"` hold. -/
theorem trimSlash_idempotent_amended :
    (∀ f : String, trimSlash f ≠ "" → jsEndsWith (trimSlash f) "/" = false →
        trimSlash (trimSlash f) = trimSlash f) ∧
    trimSlash "" = "/" ∧ trimSlash "/a/b/" = "/a/b" :=
  ⟨fun f h1 h2 => trimSlash_of_not_slash (trimSlash f) h1 h2, by decide, by decide⟩

/-- C2 (witness): the amended idempotence at the concrete folder `"/a/b"`. -/
theorem trimSlash_idempotent_amended_witness :
    trimSlash (trimSlash "/a/b") = trimSlash "/a/b" :=
  trimSlash_idempotent_amended.1 "/a/b" (by decide) (by decide)

/-- C3 (counterexample): the root folder `"/"` is not preserved — the
request carries `""` — and a folder ending in `"//"` yields a normalized
folder that still ends with a slash. -/
theorem upload_folder_counterexample :
    (uploadReq (some "x") "f" { emptyOptions with folder := some "/" }).folder = "" ∧
    (uploadReq (some "x") "f" { emptyOptions with folder := some "/" }).folder ≠ "/" ∧
    jsEndsWith (uploadReq (some "x") "f" { emptyOptions with folder := some "a//" }).folder "/" = true :=
  ⟨by decide, by decide, by decide⟩

/-- C3 (amended): the folder sent to the backend is the input folder with a
single trailing slash removed when present — including the root `"/"`,
which becomes `""` — and is `"/"` when the folder is empty or absent; the
result never ends with a slash as long as the input is nonempty and does
not end in `"//"`. -/
theorem upload_folder_normalized_amended :
    (∀ (fd : Option String) (fn : String) (opts : UploadToolOptions) (f : String),
        opts.folder = some f → f ≠ "" → jsEndsWith f "/" = true →
        (uploadReq fd fn opts).folder = jsDropLast f) ∧
    (∀ (fd : Option String) (fn : String) (opts : UploadToolOptions) (f : String),
        opts.folder = some f → f ≠ "" → jsEndsWith f "/" = false →
        (uploadReq fd fn opts).folder = f) ∧
    (∀ (fd : Option String) (fn : String) (opts : UploadToolOptions),
        opts.folder = none ∨ opts.folder = some "" →
        (uploadReq fd fn opts).folder = "/") ∧
    (∀ (fd : Option String) (fn : String) (opts : UploadToolOptions) (f : String),
        opts.folder = some f → f ≠ "" → jsEndsWith f "//" = false →
        jsEndsWith (uploadReq fd fn opts).folder "/" = false) := by
  refine ⟨?_, ?_, ?_, ?_⟩
  · intro fd fn opts f hf h1 h2
    show trimSlash (opts.folder.getD "") = jsDropLast f
    rw [hf]
    exact trimSlash_of_slash f h1 h2
  · intro fd fn opts f hf h1 h2
    show trimSlash (opts.folder.getD "") = f
    rw [hf]
    exact trimSlash_of_not_slash f h1 h2
  · intro fd fn opts hf
    show trimSlash (opts.folder.getD "") = "/"
    rcases hf with h | h <;> rw [h] <;> rfl
  · intro fd fn opts f hf h1 h2
    show jsEndsWith (trimSlash (opts.folder.getD "")) "/" = false
    rw [hf]
    exact trimSlash_no_trailing f h1 h2

/-- C3 (witness): the amended normalization at concrete folders. -/
theorem upload_folder_normalized_amended_witness :
    (uploadReq none "f" { emptyOptions with folder := some "/a/b/" }).folder = jsDropLast "/a/b/" ∧
    (uploadReq none "f" { emptyOptions with folder := some "/a/b" }).folder = "/a/b" ∧
    (uploadReq none "f" emptyOptions).folder = "/" ∧
    jsEndsWith (uploadReq none "f" { emptyOptions with folder := some "/a/b/" }).folder "/" = false :=
  ⟨upload_folder_normalized_amended.1 none "f" _ "/a/b/" rfl (by decide) (by decide),
   upload_folder_normalized_amended.2.1 none "f" _ "/a/b" rfl (by decide) (by decide),
   upload_folder_normalized_amended.2.2.1 none "f" emptyOptions (Or.inl rfl),
   upload_folder_normalized_amended.2.2.2 none "f" _ "/a/b/" rfl (by decide) (by decide)⟩

/-- C4: when both `path` and `src` are absent, `generate_url` returns the
error envelope with the exact message, and neither the client nor the URL
builder is touched. -/
theorem generate_url_requires_path_or_src
    (cached : Option Client) (env : Env) (build : UrlOptions → String)
    (i : GenerateUrlInput) (hp : i.path = none) (hs : i.src = none) :
    generate_url_handler cached env build i =
      { outcome := Except.ok (formatError "Either 'path' or 'src' is required.")
        clientRequested := false
        builderCall := none } := by
  simp [generate_url_handler, hp, hs, strTruthy]

/-- C4 (witness): the guard at a fully concrete call. -/
theorem generate_url_requires_path_or_src_witness :
    generate_url_handler none emptyEnv (fun _ => "") noSourceInput =
      { outcome := Except.ok (formatError "Either 'path' or 'src' is required.")
        clientRequested := false
        builderCall := none } :=
  generate_url_requires_path_or_src none emptyEnv (fun _ => "") noSourceInput rfl rfl

/-- C5: with `signed = true` and the default expiry `300`, the options
passed to `ik.url` carry `signed = true` and `expire_seconds = 300` and the
response text ends with the signed indicator; with `signed = false` the
options carry neither `signed` nor `expire_seconds`, whatever the supplied
expiry. -/
theorem generate_url_signed_expiry :
    (∀ i : GenerateUrlInput, i.signed = true → i.expireSeconds = 300 →
        (buildUrlOptions i).signed = some true ∧
        (buildUrlOptions i).expire_seconds = some 300) ∧
    (∀ (i : GenerateUrlInput) (c : Client) (env : Env) (build : UrlOptions → String),
        i.signed = true → i.expireSeconds = 300 →
        (!strTruthy i.path && !strTruthy i.src) = false →
        generate_url_handler (some c) env build i =
          { outcome := Except.ok (formatResult
              ("Generated URL:\n\n   " ++ build (buildUrlOptions i) ++
                "\n\n   Signed: yes, expires in 300s"))
            clientRequested := true
            builderCall := some (buildUrlOptions i) }) ∧
    (∀ i : GenerateUrlInput, i.signed = false →
        (buildUrlOptions i).expire_seconds = none ∧
        (buildUrlOptions i).signed = none) := by
  refine ⟨?_, ?_, ?_⟩
  · intro i h1 h2
    simp [buildUrlOptions, h1, h2]
  · intro i c env build h1 h2 h3
    simp [generate_url_handler, h3, getClient, generateUrlText, h1, h2]
    rfl
  · intro i h
    simp [buildUrlOptions, h]

/-- C5 (witness): both branches at fully concrete calls. -/
theorem generate_url_signed_expiry_witness :
    ((buildUrlOptions signedInput).signed = some true ∧
      (buildUrlOptions signedInput).expire_seconds = some 300) ∧
    generate_url_handler (some sampleClient) emptyEnv (fun _ => "U") signedInput =
      { outcome := Except.ok (formatResult
          ("Generated URL:\n\n   " ++ (fun (_ : UrlOptions) => "U") (buildUrlOptions signedInput) ++
            "\n\n   Signed: yes, expires in 300s"))
        clientRequested := true
        builderCall := some (buildUrlOptions signedInput) } ∧
    ((buildUrlOptions unsignedInput).expire_seconds = none ∧
      (buildUrlOptions unsignedInput).signed = none) :=
  ⟨generate_url_signed_expiry.1 signedInput rfl rfl,
   generate_url_signed_expiry.2.1 signedInput sampleClient emptyEnv (fun _ => "U") rfl rfl (by decide),
   generate_url_signed_expiry.2.2 unsignedInput rfl⟩

/-- C6: when the local file does not exist, `upload_file` returns the error
envelope `"File not found: <path>"` and neither requests the client nor
reaches the backend upload. -/
theorem upload_file_not_found
    (cached : Option Client) (env : Env)
    (backend : UploadRequest → UploadBackendResult)
    (fsExists : String → Bool) (fsReadB64 : String → String)
    (basename : String → String) (filePath : String) (fileName : Option String)
    (options : UploadToolOptions) (h : fsExists filePath = false) :
    upload_file_handler cached env backend fsExists fsReadB64 basename
        filePath fileName options =
      { outcome := Except.ok (formatError ("File not found: " ++ filePath))
        clientRequested := false
        uploadRequest := none } := by
  simp [upload_file_handler, upload_file_step, h]

/-- C6 (witness): the short-circuit on a concrete missing path. -/
theorem upload_file_not_found_witness :
    upload_file_handler none emptyEnv (fun _ => sampleBackendResult)
        (fun _ => false) (fun _ => "") (fun s => s) "/tmp/missing.png" none emptyOptions =
      { outcome := Except.ok (formatError ("File not found: " ++ "/tmp/missing.png"))
        clientRequested := false
        uploadRequest := none } :=
  upload_file_not_found none emptyEnv (fun _ => sampleBackendResult)
    (fun _ => false) (fun _ => "") (fun s => s) "/tmp/missing.png" none emptyOptions rfl

/-- C7 (counterexample): a zero-byte record with a zero width renders
`"N/A"` for the size and suppresses the dimensions even though both fields
are present — the literal claim renders `"0.0 KB"` and `"0x100"`. -/
theorem formatFileInfo_counterexample :
    formatFileInfo
        { name := "a", fileType := some "image", size := some 0, width := some 0,
          height := some 100, tags := none, fileId := "id", url := "u" } =
      "a (image, N/A)\n   ID: id\n   URL: u" ∧
    formatFileInfoClaim
        { name := "a", fileType := some "image", size := some 0, width := some 0,
          height := some 100, tags := none, fileId := "id", url := "u" } =
      "a (image, 0.0 KB, 0x100)\n   ID: id\n   URL: u" ∧
    formatFileInfo
        { name := "a", fileType := some "image", size := some 0, width := some 0,
          height := some 100, tags := none, fileId := "id", url := "u" } ≠
      formatFileInfoClaim
        { name := "a", fileType := some "image", size := some 0, width := some 0,
          height := some 100, tags := none, fileId := "id", url := "u" } :=
  ⟨by decide, by decide, by decide⟩

/-- C7 (amended): `formatFileInfo` renders the name; the type defaulting to
`"file"`; the size in KB with one decimal, or `"N/A"` when the size is
absent or zero; dimensions as `"WxH"` exactly when width and height are
both present and nonzero; a Tags line exactly when the tag list is present
and non-empty; then the id and url — i.e. it coincides everywhere with the
amended rendering. -/
theorem formatFileInfo_spec (file : FileRecord) :
    formatFileInfo file = formatFileInfoAmended file := by
  have hsize : fileSizeStr file = fileSizeStrAmended file := by
    rcases hs : file.size with _ | n
    · simp [fileSizeStr, fileSizeStrAmended, numTruthy, hs]
    · rcases n with _ | m
      · simp [fileSizeStr, fileSizeStrAmended, numTruthy, hs]
      · simp [fileSizeStr, fileSizeStrAmended, numTruthy, hs]
  have hdims : fileDimsStr file = fileDimsStrAmended file := by
    rcases hw : file.width with _ | w <;> rcases hh : file.height with _ | h <;>
      simp [fileDimsStr, fileDimsStrAmended, numTruthy, hw, hh]
  unfold formatFileInfo formatFileInfoAmended
  rw [hsize, hdims]

/-- C7 has no hypothesis beyond the record itself; still, the equality at a
concrete record exercises every rendered component. -/
theorem formatFileInfo_spec_witness :
    formatFileInfo
        { name := "cat.jpg", fileType := some "image", size := some 2048,
          width := some 640, height := some 480, tags := some ["a", "b"],
          fileId := "f1", url := "https://ik.example/cat.jpg" } =
      formatFileInfoAmended
        { name := "cat.jpg", fileType := some "image", size := some 2048,
          width := some 640, height := some 480, tags := some ["a", "b"],
          fileId := "f1", url := "https://ik.example/cat.jpg" } :=
  formatFileInfo_spec
    { name := "cat.jpg", fileType := some "image", size := some 2048,
      width := some 640, height := some 480, tags := some ["a", "b"],
      fileId := "f1", url := "https://ik.example/cat.jpg" }

/-- C8: with a backend listing of one file entry and one folder entry at
`"/photos"`, the handler returns only the folder entry under a count-1
header. -/
theorem list_folders_filters_files
    (f g : ListEntry) (c : Client) (env : Env)
    (backend : String → List ListEntry)
    (hf : f.type = "file") (hg : g.type = "folder")
    (hb : backend "/photos" = [f, g]) :
    list_folders_handler (some c) env backend "/photos" =
      Except.ok (formatResult
        ("Found 1 folder(s) in \"/photos\":\n\n" ++ folderLine g)) := by
  simp [list_folders_handler, getClient, hb, list_folders_render, hf, hg,
    intercalate_singleton]
  rfl

/-- C8 (witness): the concrete scenario with explicit entries. -/
theorem list_folders_filters_files_witness :
    list_folders_handler (some sampleClient) emptyEnv
        (fun _ => [{ type := "file", name := "a.jpg", folderId := none, folderPath := none },
                   { type := "folder", name := "albums", folderId := some "fo1",
                     folderPath := some "/photos/albums" }]) "/photos" =
      Except.ok (formatResult
        ("Found 1 folder(s) in \"/photos\":\n\n" ++
          folderLine { type := "folder", name := "albums", folderId := some "fo1",
                       folderPath := some "/photos/albums" })) :=
  list_folders_filters_files
    { type := "file", name := "a.jpg", folderId := none, folderPath := none }
    { type := "folder", name := "albums", folderId := some "fo1",
      folderPath := some "/photos/albums" }
    sampleClient emptyEnv _ rfl rfl rfl

/-- C9: the client cache is a lazy idempotent singleton — a cached client
is returned identically whatever the environment; a failed construction
leaves the cache unset and names the missing credentials; a later call with
all three credentials constructs and caches the client. -/
theorem getClient_singleton_invariant :
    (∀ (c : Client) (env : Env), getClient (some c) env = (Except.ok c, some c)) ∧
    (∀ env : Env, credsOk env = false →
        getClient none env = (Except.error missingCredentialsMsg, none)) ∧
    (∀ env : Env, credsOk env = true →
        getClient none env =
          (Except.ok { publicKey := env.publicKey.getD "",
                       privateKey := env.privateKey.getD "",
                       urlEndpoint := env.urlEndpoint.getD "" },
           some { publicKey := env.publicKey.getD "",
                  privateKey := env.privateKey.getD "",
                  urlEndpoint := env.urlEndpoint.getD "" })) := by
  refine ⟨fun c env => rfl, ?_, ?_⟩
  · intro env h
    simp [getClient, h]
  · intro env h
    simp [getClient, h]

/-- C9 (witness): the three singleton properties at concrete states — a
cached client survives a changed environment, a failing construction leaves
the cache unset, and a later fully-credentialed call caches. -/
theorem getClient_singleton_invariant_witness :
    getClient (some sampleClient) emptyEnv = (Except.ok sampleClient, some sampleClient) ∧
    getClient none emptyEnv = (Except.error missingCredentialsMsg, none) ∧
    getClient none { publicKey := some "pk", privateKey := some "sk",
                     urlEndpoint := some "https://ik.example" } =
      (Except.ok sampleClient, some sampleClient) :=
  ⟨getClient_singleton_invariant.1 sampleClient emptyEnv,
   getClient_singleton_invariant.2.1 emptyEnv rfl,
   getClient_singleton_invariant.2.2
     { publicKey := some "pk", privateKey := some "sk",
       urlEndpoint := some "https://ik.example" } rfl⟩

/-- C10: an empty tag list, an empty `customCoordinates` string, and an
absent `customMetadata` are all omitted from the assembled upload request,
indistinguishably from omitting the field — at the shared request assembly
and through the shared upload runner used by all three upload tools. -/
theorem upload_empty_optionals_omitted :
    (∀ (fd : Option String) (fn : String) (opts : UploadToolOptions),
        (uploadReq fd fn { opts with tags := some [] }).tags = none ∧
        (uploadReq fd fn { opts with customCoordinates := some "" }).customCoordinates = none ∧
        (uploadReq fd fn { opts with customMetadata := none }).customMetadata = none) ∧
    (∀ (fd : Option String) (fn : String) (opts : UploadToolOptions),
        uploadReq fd fn { opts with tags := some [] } =
          uploadReq fd fn { opts with tags := none } ∧
        uploadReq fd fn { opts with customCoordinates := some "" } =
          uploadReq fd fn { opts with customCoordinates := none }) ∧
    (∀ (cached : Option Client) (env : Env)
        (backend : UploadRequest → UploadBackendResult)
        (fd : Option String) (fn : String) (opts : UploadToolOptions),
        uploadToImageKitRun cached env backend fd fn { opts with tags := some [] } =
          uploadToImageKitRun cached env backend fd fn { opts with tags := none } ∧
        uploadToImageKitRun cached env backend fd fn { opts with customCoordinates := some "" } =
          uploadToImageKitRun cached env backend fd fn { opts with customCoordinates := none }) := by
  have htags : ∀ (fd : Option String) (fn : String) (opts : UploadToolOptions),
      uploadReq fd fn { opts with tags := some [] } =
        uploadReq fd fn { opts with tags := none } := by
    intro fd fn opts
    simp [uploadReq]
  have hcoords : ∀ (fd : Option String) (fn : String) (opts : UploadToolOptions),
      uploadReq fd fn { opts with customCoordinates := some "" } =
        uploadReq fd fn { opts with customCoordinates := none } := by
    intro fd fn opts
    simp [uploadReq]
  refine ⟨?_, ?_, ?_⟩
  · intro fd fn opts
    exact ⟨by simp [uploadReq], by simp [uploadReq], by simp [uploadReq]⟩
  · intro fd fn opts
    exact ⟨htags fd fn opts, hcoords fd fn opts⟩
  · intro cached env backend fd fn opts
    constructor
    · unfold uploadToImageKitRun
      rw [htags fd fn opts]
    · unfold uploadToImageKitRun
      rw [hcoords fd fn opts]

end ImageKitMCP
